import Mathlib

/-!
Shallow embedding of the AWS EBS volume-limit calculator library
(src/src/lib.rs) and proofs of its specified properties.

The Rust code works on `u32` values. Every arithmetic operation in the
library is executed only after range validation keeps the operands far
below 2^32 (the largest product is 3 * 16384 = 49152), so modelling the
machine integers by `Nat` with truncating division is exact on every
reachable path.

The Rust functions return `Result<Limit, Box<dyn Error>>` with string
messages. Following the spec's error taxonomy, each error site is
classified as either an out-of-range failure or a ratio-constraint
failure; the message strings are recorded in comments at each site.
-/

namespace VolumeLimit

/-- The shared result type: `pub struct Limit` with four `u32` fields. -/
structure Limit where
  iops : Nat
  speed : Nat
  burst_iops : Nat
  burst_speed : Nat
  deriving DecidableEq, Repr

/-- Error kinds of the validation failures, per the spec's taxonomy
(`OutOfRange` for interval violations, `RatioViolation` for the two
cross-field ratio constraints of the gp3 calculator). -/
inductive CalcError where
  | outOfRange
  | ratioViolation
  deriving DecidableEq, Repr

/-- `calculate_gp2_limits` from src/src/lib.rs (lines 23-53). -/
def calculate_gp2_limits (volume_size_gb : Nat) : Except CalcError Limit :=
  if volume_size_gb < 1 ∨ volume_size_gb > 16384 then
    -- "Volume size for gp2 can not be less than 1GiB or greater than 16384GiB"
    .error .outOfRange
  else if volume_size_gb > 1000 then
    let max_available_iops := 16000
    let max_available_throughput := 250
    let calculate_iops := 3 * volume_size_gb
    let baseline_iops := min calculate_iops max_available_iops
    let baseline_throughput := max_available_throughput
    .ok { iops := baseline_iops, speed := baseline_throughput,
          burst_iops := 0, burst_speed := 0 }
  else
    let burst := 3000
    if volume_size_gb < 170 then
      let max_available_throughput := 128
      let calculate_iops := 3 * volume_size_gb
      let baseline_iops := max calculate_iops 100
      let calculate_tp := baseline_iops / 4
      let baseline_throughput := min max_available_throughput calculate_tp
      .ok { iops := baseline_iops, speed := baseline_throughput,
            burst_iops := burst, burst_speed := max_available_throughput }
    else
      let max_available_throughput := 250
      let calculate_iops := 3 * volume_size_gb
      let baseline_iops := calculate_iops
      let calculate_tp := baseline_iops / 4
      let baseline_throughput := min max_available_throughput calculate_tp
      .ok { iops := baseline_iops, speed := baseline_throughput,
            burst_iops := burst, burst_speed := max_available_throughput }

/-- The IOPS-resolution block of `calculate_gp3_limits`
(src/src/lib.rs lines 61-75): the `let volume_iops = ...` block with its
two early returns. -/
def gp3_resolve_iops (volume_size_gb : Nat) :
    Option Nat → Except CalcError Nat
  | none => .ok 3000
  | some iops =>
    if iops < 3000 ∨ iops > 64000 then
      -- "Provisioned IOPS can not be less than 3000 or greater than 16000
      --  for Gp3 volume type.." (the message misstates the 64000 bound)
      .error .outOfRange
    else if iops / volume_size_gb > 500 then
      -- "Maximum ratio of 500:1 is permitted between IOPS and volume size
      --  for Gp3 volume type."
      .error .ratioViolation
    else
      .ok iops

/-- The throughput-resolution block of `calculate_gp3_limits`
(src/src/lib.rs lines 77-89): the `let volume_throughput = ...` block
with its two early returns; `volume_iops` is the already-resolved IOPS. -/
def gp3_resolve_throughput (volume_iops : Nat) :
    Option Nat → Except CalcError Nat
  | none => .ok 125
  | some throughput =>
    if throughput < 125 ∨ throughput > 1000 then
      -- "Provisioned throughput can not be less than 125MiB/s or greater
      --  than 1000MiB/s for Gp3 volume type.."
      .error .outOfRange
    else if volume_iops / throughput < 4 then
      -- "Maximum ratio of 0.25:1 is permitted between Throughput (MiBps)
      --  and IOPS for Gp3 volume type."
      .error .ratioViolation
    else
      .ok throughput

/-- `calculate_gp3_limits` from src/src/lib.rs (lines 56-91). -/
def calculate_gp3_limits (volume_size_gb : Nat)
    (volume_provisioned_iops volume_provisioned_throughput : Option Nat) :
    Except CalcError Limit :=
  if volume_size_gb < 1 ∨ volume_size_gb > 16384 then
    -- "Volume size for gp3 can not be less than 1GiB or greater than 16384GiB"
    .error .outOfRange
  else
    match gp3_resolve_iops volume_size_gb volume_provisioned_iops with
    | .error e => .error e
    | .ok volume_iops =>
      match gp3_resolve_throughput volume_iops volume_provisioned_throughput with
      | .error e => .error e
      | .ok volume_throughput =>
        .ok { iops := volume_iops, speed := volume_throughput,
              burst_iops := 0, burst_speed := 0 }

/-- `calculate_io_limits` from src/src/lib.rs (lines 93-109). -/
def calculate_io_limits (volume_provisioned_iops : Nat) : Except CalcError Limit :=
  if volume_provisioned_iops < 100 ∨ volume_provisioned_iops > 64000 then
    -- "Provisioned IOPS can not be less than 100 or greater than 64000."
    .error .outOfRange
  else if volume_provisioned_iops < 32000 then
    let max_available_throughput := 500
    let calculate_tp := volume_provisioned_iops / 4
    let baseline_throughput := min max_available_throughput calculate_tp
    .ok { iops := volume_provisioned_iops, speed := baseline_throughput,
          burst_iops := 0, burst_speed := 0 }
  else
    let max_available_throughput := 1000
    let calculate_tp := volume_provisioned_iops / 64
    let baseline_throughput := min max_available_throughput calculate_tp
    .ok { iops := volume_provisioned_iops, speed := baseline_throughput,
          burst_iops := 0, burst_speed := 0 }

/-- The three-tier formula of the gp2 calculator exactly as the spec words
it (spec section 4.1); compared against `calculate_gp2_limits` in the
refinement theorem for claim C1. -/
def gp2_claim_formula (size : Nat) : Limit :=
  if size > 1000 then
    { iops := min (3 * size) 16000, speed := 250,
      burst_iops := 0, burst_speed := 0 }
  else if size < 170 then
    { iops := max (3 * size) 100,
      speed := min 128 (max (3 * size) 100 / 4),
      burst_iops := 3000, burst_speed := 128 }
  else
    { iops := 3 * size, speed := min 250 (3 * size / 4),
      burst_iops := 3000, burst_speed := 250 }

/-!
Division-instrumented variants, used to settle the division-safety claim.
`checkedDiv` signals a zero divisor with `none`; each `_dc` function is
the corresponding calculator with every `/` of the source replaced by
`checkedDiv`, the outer `Option` layer propagating the signal. Agreement
`f_dc x = some (f x)` for all inputs states that no execution of the
source ever divides by zero.
-/

/-- Division that signals a zero divisor instead of defaulting. -/
def checkedDiv (a b : Nat) : Option Nat :=
  if b = 0 then none else some (a / b)

/-- `calculate_gp2_limits` with every division instrumented by `checkedDiv`. -/
def calculate_gp2_limits_dc (volume_size_gb : Nat) :
    Option (Except CalcError Limit) :=
  if volume_size_gb < 1 ∨ volume_size_gb > 16384 then
    some (.error .outOfRange)
  else if volume_size_gb > 1000 then
    some (.ok { iops := min (3 * volume_size_gb) 16000, speed := 250,
                burst_iops := 0, burst_speed := 0 })
  else if volume_size_gb < 170 then
    match checkedDiv (max (3 * volume_size_gb) 100) 4 with
    | none => none
    | some calculate_tp =>
      some (.ok { iops := max (3 * volume_size_gb) 100,
                  speed := min 128 calculate_tp,
                  burst_iops := 3000, burst_speed := 128 })
  else
    match checkedDiv (3 * volume_size_gb) 4 with
    | none => none
    | some calculate_tp =>
      some (.ok { iops := 3 * volume_size_gb, speed := min 250 calculate_tp,
                  burst_iops := 3000, burst_speed := 250 })

/-- `gp3_resolve_iops` with its division `iops / volume_size_gb`
instrumented by `checkedDiv`. -/
def gp3_resolve_iops_dc (volume_size_gb : Nat) :
    Option Nat → Option (Except CalcError Nat)
  | none => some (.ok 3000)
  | some iops =>
    if iops < 3000 ∨ iops > 64000 then
      some (.error .outOfRange)
    else
      match checkedDiv iops volume_size_gb with
      | none => none
      | some q =>
        if q > 500 then some (.error .ratioViolation) else some (.ok iops)

/-- `gp3_resolve_throughput` with its division `volume_iops / throughput`
instrumented by `checkedDiv`. -/
def gp3_resolve_throughput_dc (volume_iops : Nat) :
    Option Nat → Option (Except CalcError Nat)
  | none => some (.ok 125)
  | some throughput =>
    if throughput < 125 ∨ throughput > 1000 then
      some (.error .outOfRange)
    else
      match checkedDiv volume_iops throughput with
      | none => none
      | some q =>
        if q < 4 then some (.error .ratioViolation) else some (.ok throughput)

/-- `calculate_gp3_limits` with every division instrumented by `checkedDiv`. -/
def calculate_gp3_limits_dc (volume_size_gb : Nat)
    (volume_provisioned_iops volume_provisioned_throughput : Option Nat) :
    Option (Except CalcError Limit) :=
  if volume_size_gb < 1 ∨ volume_size_gb > 16384 then
    some (.error .outOfRange)
  else
    match gp3_resolve_iops_dc volume_size_gb volume_provisioned_iops with
    | none => none
    | some (.error e) => some (.error e)
    | some (.ok volume_iops) =>
      match gp3_resolve_throughput_dc volume_iops volume_provisioned_throughput with
      | none => none
      | some (.error e) => some (.error e)
      | some (.ok volume_throughput) =>
        some (.ok { iops := volume_iops, speed := volume_throughput,
                    burst_iops := 0, burst_speed := 0 })

/-- `calculate_io_limits` with every division instrumented by `checkedDiv`. -/
def calculate_io_limits_dc (volume_provisioned_iops : Nat) :
    Option (Except CalcError Limit) :=
  if volume_provisioned_iops < 100 ∨ volume_provisioned_iops > 64000 then
    some (.error .outOfRange)
  else if volume_provisioned_iops < 32000 then
    match checkedDiv volume_provisioned_iops 4 with
    | none => none
    | some calculate_tp =>
      some (.ok { iops := volume_provisioned_iops, speed := min 500 calculate_tp,
                  burst_iops := 0, burst_speed := 0 })
  else
    match checkedDiv volume_provisioned_iops 64 with
    | none => none
    | some calculate_tp =>
      some (.ok { iops := volume_provisioned_iops, speed := min 1000 calculate_tp,
                  burst_iops := 0, burst_speed := 0 })

/-! ## Helper lemmas shared between claim theorems -/

/-- On the admissible range the gp2 calculator returns exactly the
three-tier formula. -/
theorem gp2_in_range_eq (s : Nat) (h1 : 1 ≤ s) (h2 : s ≤ 16384) :
    calculate_gp2_limits s = .ok (gp2_claim_formula s) := by
  unfold calculate_gp2_limits gp2_claim_formula
  rw [if_neg (by omega : ¬(s < 1 ∨ s > 16384))]
  by_cases hA : s > 1000
  · simp only [if_pos hA]
  · simp only [if_neg hA]
    by_cases hB : s < 170
    · simp only [if_pos hB]
    · simp only [if_neg hB]

/-- On the admissible range the io calculator returns exactly the
two-tier formula. -/
theorem io_in_range_eq (i : Nat) (h1 : 100 ≤ i) (h2 : i ≤ 64000) :
    calculate_io_limits i =
      .ok { iops := i,
            speed := if i < 32000 then min 500 (i / 4) else min 1000 (i / 64),
            burst_iops := 0, burst_speed := 0 } := by
  unfold calculate_io_limits
  rw [if_neg (by omega : ¬(i < 100 ∨ i > 64000))]
  by_cases hA : i < 32000
  · simp only [if_pos hA]
  · simp only [if_neg hA]

/-- Once the size guard passes, `calculate_gp3_limits` is the composition
of the two resolution blocks. -/
theorem gp3_guard_passed (s : Nat) (h1 : 1 ≤ s) (h2 : s ≤ 16384)
    (vpi vpt : Option Nat) :
    calculate_gp3_limits s vpi vpt =
      match gp3_resolve_iops s vpi with
      | .error e => .error e
      | .ok volume_iops =>
        match gp3_resolve_throughput volume_iops vpt with
        | .error e => .error e
        | .ok volume_throughput =>
          .ok { iops := volume_iops, speed := volume_throughput,
                burst_iops := 0, burst_speed := 0 } := by
  unfold calculate_gp3_limits
  rw [if_neg (by omega : ¬(s < 1 ∨ s > 16384))]

/-- Once IOPS resolution succeeds with value `vi`, the whole gp3 call is
determined by the throughput-resolution block applied to `vi`. -/
theorem gp3_after_iops (s : Nat) (h1 : 1 ≤ s) (h2 : s ≤ 16384) (vi : Nat)
    (vpi vpt : Option Nat) (hres : gp3_resolve_iops s vpi = .ok vi) :
    calculate_gp3_limits s vpi vpt =
      match gp3_resolve_throughput vi vpt with
      | .error e => .error e
      | .ok volume_throughput =>
        .ok { iops := vi, speed := volume_throughput,
              burst_iops := 0, burst_speed := 0 } := by
  rw [gp3_guard_passed s h1 h2 vpi vpt, hres]

/-- The instrumented gp2 calculator never hits a zero divisor and agrees
with the plain one on every input. -/
theorem gp2_dc_agrees (s : Nat) :
    calculate_gp2_limits_dc s = some (calculate_gp2_limits s) := by
  unfold calculate_gp2_limits_dc calculate_gp2_limits
  by_cases h0 : s < 1 ∨ s > 16384
  · simp only [if_pos h0]
  · simp only [if_neg h0]
    by_cases hA : s > 1000
    · simp only [if_pos hA]
    · simp only [if_neg hA]
      by_cases hB : s < 170
      · simp only [if_pos hB]; rfl
      · simp only [if_neg hB]; rfl

/-- The instrumented IOPS-resolution block of gp3 never hits a zero
divisor once the size is at least 1, and agrees with the plain one. -/
theorem gp3_resolve_iops_dc_agrees (s : Nat) (hs : 1 ≤ s) (o : Option Nat) :
    gp3_resolve_iops_dc s o = some (gp3_resolve_iops s o) := by
  cases o with
  | none => rfl
  | some iops =>
    unfold gp3_resolve_iops_dc gp3_resolve_iops checkedDiv
    by_cases hr : iops < 3000 ∨ iops > 64000
    · simp only [if_pos hr]
    · simp only [if_neg hr]
      rw [if_neg (by omega : ¬ s = 0)]
      by_cases hq : iops / s > 500
      · simp only [if_pos hq]
      · simp only [if_neg hq]

/-- The instrumented throughput-resolution block of gp3 never hits a zero
divisor (the divisor is range checked to be at least 125 first), and
agrees with the plain one. -/
theorem gp3_resolve_throughput_dc_agrees (vi : Nat) (o : Option Nat) :
    gp3_resolve_throughput_dc vi o = some (gp3_resolve_throughput vi o) := by
  cases o with
  | none => rfl
  | some tp =>
    unfold gp3_resolve_throughput_dc gp3_resolve_throughput checkedDiv
    by_cases hr : tp < 125 ∨ tp > 1000
    · simp only [if_pos hr]
    · simp only [if_neg hr]
      rw [if_neg (by omega : ¬ tp = 0)]
      by_cases hq : vi / tp < 4
      · simp only [if_pos hq]
      · simp only [if_neg hq]

/-- The instrumented gp3 calculator never hits a zero divisor and agrees
with the plain one on every input. -/
theorem gp3_dc_agrees (s : Nat) (vpi vpt : Option Nat) :
    calculate_gp3_limits_dc s vpi vpt = some (calculate_gp3_limits s vpi vpt) := by
  unfold calculate_gp3_limits_dc calculate_gp3_limits
  by_cases h0 : s < 1 ∨ s > 16384
  · simp only [if_pos h0]
  · simp only [if_neg h0]
    rw [gp3_resolve_iops_dc_agrees s (by omega) vpi]
    cases gp3_resolve_iops s vpi with
    | error e => rfl
    | ok vi =>
      show (match gp3_resolve_throughput_dc vi vpt with
            | none => none
            | some (Except.error e) => some (Except.error e)
            | some (Except.ok volume_throughput) =>
              some (Except.ok (Limit.mk vi volume_throughput 0 0))) =
          some (match gp3_resolve_throughput vi vpt with
                | Except.error e => Except.error e
                | Except.ok volume_throughput =>
                  Except.ok (Limit.mk vi volume_throughput 0 0))
      rw [gp3_resolve_throughput_dc_agrees vi vpt]
      cases gp3_resolve_throughput vi vpt with
      | error e => rfl
      | ok vt => rfl

/-- The instrumented io calculator never hits a zero divisor and agrees
with the plain one on every input. -/
theorem io_dc_agrees (i : Nat) :
    calculate_io_limits_dc i = some (calculate_io_limits i) := by
  unfold calculate_io_limits_dc calculate_io_limits
  by_cases h0 : i < 100 ∨ i > 64000
  · simp only [if_pos h0]
  · simp only [if_neg h0]
    by_cases hA : i < 32000
    · simp only [if_pos hA]; rfl
    · simp only [if_neg hA]; rfl

/-- If a gp3 call with resolved IOPS `vi` returns a `Limit`, its `iops`
field is exactly `vi`. -/
theorem gp3_ok_iops_eq (s : Nat) (h1 : 1 ≤ s) (h2 : s ≤ 16384) (vi : Nat)
    (vpi vpt : Option Nat) (hres : gp3_resolve_iops s vpi = .ok vi)
    (r : Limit) (hr : calculate_gp3_limits s vpi vpt = .ok r) : r.iops = vi := by
  rw [gp3_after_iops s h1 h2 vi vpi vpt hres] at hr
  cases htp : gp3_resolve_throughput vi vpt with
  | error e =>
    rw [htp] at hr
    exact absurd hr (by simp)
  | ok vt =>
    rw [htp] at hr
    simp only [Except.ok.injEq] at hr
    rw [← hr]

/-! ## Claim theorems -/

/-- C1: for every volume_size_gb in [1, 16384], `calculate_gp2_limits`
returns Ok of the Limit computed by exactly one of the three mutually
exclusive tiers of the spec formula: size > 1000 gives
iops = min(3*size, 16000), speed = 250, no burst; size < 170 gives
iops = max(3*size, 100), speed = min(128, iops/4), burst 3000/128;
otherwise iops = 3*size, speed = min(250, iops/4), burst 3000/250. -/
theorem claim_C1 (s : Nat) (h1 : 1 ≤ s) (h2 : s ≤ 16384) :
    calculate_gp2_limits s = .ok (gp2_claim_formula s) :=
  gp2_in_range_eq s h1 h2

theorem claim_C1_witness :
    calculate_gp2_limits 20 = .ok (gp2_claim_formula 20) ∧
      gp2_claim_formula 20 =
        { iops := 100, speed := 25, burst_iops := 3000, burst_speed := 128 } :=
  ⟨claim_C1 20 (by decide) (by decide), by decide⟩

/-- C2: IOPS resolution of `calculate_gp3_limits` for sizes in
[1, 16384]: absent provisioned IOPS resolves to 3000; a provided value
outside [3000, 64000] fails with outOfRange; a provided value in range
with iops / size > 500 (truncating) fails with ratioViolation, whatever
the provisioned throughput is; otherwise the resolved IOPS is the
provided value. -/
theorem claim_C2 (s : Nat) (h1 : 1 ≤ s) (h2 : s ≤ 16384) (vpt : Option Nat) :
    (∀ r, calculate_gp3_limits s none vpt = .ok r → r.iops = 3000)
  ∧ (∀ iops, iops < 3000 ∨ iops > 64000 →
      calculate_gp3_limits s (some iops) vpt = .error .outOfRange)
  ∧ (∀ iops, 3000 ≤ iops → iops ≤ 64000 → 500 < iops / s →
      calculate_gp3_limits s (some iops) vpt = .error .ratioViolation)
  ∧ (∀ iops, 3000 ≤ iops → iops ≤ 64000 → iops / s ≤ 500 →
      gp3_resolve_iops s (some iops) = .ok iops ∧
      ∀ r, calculate_gp3_limits s (some iops) vpt = .ok r → r.iops = iops) := by
  refine ⟨?_, ?_, ?_, ?_⟩
  · intro r hr
    exact gp3_ok_iops_eq s h1 h2 3000 none vpt rfl r hr
  · intro iops hio
    rw [gp3_guard_passed s h1 h2 (some iops) vpt]
    simp only [gp3_resolve_iops]
    rw [if_pos hio]
  · intro iops hlo hhi h500
    rw [gp3_guard_passed s h1 h2 (some iops) vpt]
    simp only [gp3_resolve_iops]
    rw [if_neg (by omega : ¬(iops < 3000 ∨ iops > 64000)), if_pos h500]
  · intro iops hlo hhi h500
    have hres : gp3_resolve_iops s (some iops) = .ok iops := by
      simp only [gp3_resolve_iops]
      rw [if_neg (by omega : ¬(iops < 3000 ∨ iops > 64000)),
        if_neg (by omega : ¬ iops / s > 500)]
    exact ⟨hres, fun r hr => gp3_ok_iops_eq s h1 h2 iops (some iops) vpt hres r hr⟩

theorem claim_C2_witness :
    calculate_gp3_limits 100 (some 2000) none = .error .outOfRange ∧
      calculate_gp3_limits 4 (some 3000) none = .error .ratioViolation :=
  ⟨(claim_C2 100 (by decide) (by decide) none).2.1 2000 (by decide),
   (claim_C2 4 (by decide) (by decide) none).2.2.1 3000 (by decide) (by decide)
     (by decide)⟩

/-- C3: throughput resolution of `calculate_gp3_limits` after IOPS
resolution succeeded with value `vi`: absent provisioned throughput
resolves to 125 (and the call succeeds); a provided value outside
[125, 1000] fails with outOfRange; a provided value in range with
vi / throughput < 4 (truncating, against the resolved IOPS) fails with
ratioViolation; and for throughput at least 125 that ratio condition is
equivalent to the throughput exceeding a quarter of the resolved IOPS. -/
theorem claim_C3 (s : Nat) (h1 : 1 ≤ s) (h2 : s ≤ 16384)
    (vpi : Option Nat) (vi : Nat) (hres : gp3_resolve_iops s vpi = .ok vi) :
    calculate_gp3_limits s vpi none =
      .ok { iops := vi, speed := 125, burst_iops := 0, burst_speed := 0 }
  ∧ (∀ tp, tp < 125 ∨ tp > 1000 →
      calculate_gp3_limits s vpi (some tp) = .error .outOfRange)
  ∧ (∀ tp, 125 ≤ tp → tp ≤ 1000 → vi / tp < 4 →
      calculate_gp3_limits s vpi (some tp) = .error .ratioViolation)
  ∧ (∀ tp, 125 ≤ tp → (vi / tp < 4 ↔ vi / 4 < tp)) := by
  refine ⟨?_, ?_, ?_, ?_⟩
  · rw [gp3_after_iops s h1 h2 vi vpi none hres]
    rfl
  · intro tp htp
    rw [gp3_after_iops s h1 h2 vi vpi (some tp) hres]
    simp only [gp3_resolve_throughput]
    rw [if_pos htp]
  · intro tp hlo hhi h4
    rw [gp3_after_iops s h1 h2 vi vpi (some tp) hres]
    simp only [gp3_resolve_throughput]
    rw [if_neg (by omega : ¬(tp < 125 ∨ tp > 1000)), if_pos h4]
  · intro tp hlo
    rw [Nat.div_lt_iff_lt_mul (by omega : 0 < tp),
      Nat.div_lt_iff_lt_mul (by omega : 0 < 4)]
    omega

theorem claim_C3_witness :
    calculate_gp3_limits 1000 (some 3000) none =
      .ok { iops := 3000, speed := 125, burst_iops := 0, burst_speed := 0 } ∧
    calculate_gp3_limits 1000 (some 3000) (some 800) = .error .ratioViolation := by
  have h := claim_C3 1000 (by decide) (by decide) (some 3000) 3000 rfl
  exact ⟨h.1, h.2.2.1 800 (by decide) (by decide) (by decide)⟩

/-- C4: for every provisioned IOPS in [100, 64000], `calculate_io_limits`
returns Ok with iops echoed, no burst, and speed = min(500, iops/4) when
iops < 32000 and min(1000, iops/64) when iops >= 32000; in particular
31999 falls in the /4 tier and 32000 in the /64 tier. -/
theorem claim_C4 (i : Nat) (h1 : 100 ≤ i) (h2 : i ≤ 64000) :
    calculate_io_limits i =
      .ok { iops := i,
            speed := if i < 32000 then min 500 (i / 4) else min 1000 (i / 64),
            burst_iops := 0, burst_speed := 0 }
  ∧ calculate_io_limits 31999 =
      .ok { iops := 31999, speed := min 500 (31999 / 4),
            burst_iops := 0, burst_speed := 0 }
  ∧ calculate_io_limits 32000 =
      .ok { iops := 32000, speed := min 1000 (32000 / 64),
            burst_iops := 0, burst_speed := 0 } :=
  ⟨io_in_range_eq i h1 h2, by rfl, by rfl⟩

theorem claim_C4_witness :
    calculate_io_limits 1500 =
      .ok { iops := 1500,
            speed := if 1500 < 32000 then min 500 (1500 / 4) else min 1000 (1500 / 64),
            burst_iops := 0, burst_speed := 0 } ∧
    calculate_io_limits 1500 =
      .ok { iops := 1500, speed := 375, burst_iops := 0, burst_speed := 0 } :=
  ⟨(claim_C4 1500 (by decide) (by decide)).1, by rfl⟩

/-- C5: for each calculator, every input outside its admissible interval
fails with outOfRange (gp2 and gp3: size outside [1, 16384]; io: IOPS
outside [100, 64000]), never returning a Limit. -/
theorem claim_C5 (s t i : Nat) (vpi vpt : Option Nat)
    (hs : s < 1 ∨ s > 16384) (ht : t < 1 ∨ t > 16384)
    (hi : i < 100 ∨ i > 64000) :
    calculate_gp2_limits s = .error .outOfRange
  ∧ calculate_gp3_limits t vpi vpt = .error .outOfRange
  ∧ calculate_io_limits i = .error .outOfRange := by
  refine ⟨?_, ?_, ?_⟩
  · unfold calculate_gp2_limits
    rw [if_pos hs]
  · unfold calculate_gp3_limits
    rw [if_pos ht]
  · unfold calculate_io_limits
    rw [if_pos hi]

theorem claim_C5_witness :
    calculate_gp2_limits 0 = .error .outOfRange
  ∧ calculate_gp3_limits 16385 none none = .error .outOfRange
  ∧ calculate_io_limits 99 = .error .outOfRange :=
  claim_C5 0 16385 99 none none (by decide) (by decide) (by decide)

/-- C6: for every volume_size_gb in [1, 16384], `calculate_gp3_limits`
with both optional inputs absent returns Ok of the default limits
iops = 3000, speed = 125 and no burst. -/
theorem claim_C6 (s : Nat) (h1 : 1 ≤ s) (h2 : s ≤ 16384) :
    calculate_gp3_limits s none none =
      .ok { iops := 3000, speed := 125, burst_iops := 0, burst_speed := 0 } := by
  rw [gp3_after_iops s h1 h2 3000 none none rfl]
  rfl

theorem claim_C6_witness :
    calculate_gp3_limits 20 none none =
      .ok { iops := 3000, speed := 125, burst_iops := 0, burst_speed := 0 } :=
  claim_C6 20 (by decide) (by decide)

/-- C7: no execution of any of the three calculators divides by zero:
each calculator with every division replaced by `checkedDiv` (which
signals a zero divisor) agrees with the plain calculator on every input,
the divisions of gp3 happening only behind the size >= 1 and
throughput >= 125 checks, and the remaining divisors being the constants
4 and 64. -/
theorem claim_C7 :
    (∀ s, calculate_gp2_limits_dc s = some (calculate_gp2_limits s))
  ∧ (∀ s vpi vpt, calculate_gp3_limits_dc s vpi vpt =
      some (calculate_gp3_limits s vpi vpt))
  ∧ (∀ i, calculate_io_limits_dc i = some (calculate_io_limits i)) :=
  ⟨gp2_dc_agrees, gp3_dc_agrees, io_dc_agrees⟩

/-- C8: with provisioned IOPS absent, gp3 performs no IOPS-to-size ratio
check on the defaulted 3000: for every size in [1, 5] the ratio
3000 / size exceeds 500, yet the call succeeds with iops = 3000, both
with throughput absent and with any admissible provisioned throughput. -/
theorem claim_C8 (s : Nat) (h1 : 1 ≤ s) (h2 : s ≤ 5) :
    500 < 3000 / s
  ∧ calculate_gp3_limits s none none =
      .ok { iops := 3000, speed := 125, burst_iops := 0, burst_speed := 0 }
  ∧ ∀ tp, 125 ≤ tp → tp ≤ 1000 → 4 ≤ 3000 / tp →
      calculate_gp3_limits s none (some tp) =
        .ok { iops := 3000, speed := tp, burst_iops := 0, burst_speed := 0 } := by
  refine ⟨?_, ?_, ?_⟩
  · interval_cases s <;> decide
  · rw [gp3_after_iops s h1 (by omega) 3000 none none rfl]
    rfl
  · intro tp hlo hhi hratio
    rw [gp3_after_iops s h1 (by omega) 3000 none (some tp) rfl]
    simp only [gp3_resolve_throughput]
    rw [if_neg (by omega : ¬(tp < 125 ∨ tp > 1000)),
      if_neg (by omega : ¬ 3000 / tp < 4)]

theorem claim_C8_witness :
    500 < 3000 / 2
  ∧ calculate_gp3_limits 2 none none =
      .ok { iops := 3000, speed := 125, burst_iops := 0, burst_speed := 0 }
  ∧ calculate_gp3_limits 2 none (some 500) =
      .ok { iops := 3000, speed := 500, burst_iops := 0, burst_speed := 0 } := by
  have h := claim_C8 2 (by decide) (by decide)
  exact ⟨h.1, h.2.1, h.2.2 500 (by decide) (by decide) (by decide)⟩

/-- C9: the speed returned by `calculate_io_limits` is monotone
non-decreasing over the admissible range [100, 64000], including across
the tier boundary at 32000. -/
theorem claim_C9 (v1 v2 : Nat) (ha : 100 ≤ v1) (hb : v1 ≤ v2)
    (hc : v2 ≤ 64000) :
    ∃ l1 l2, calculate_io_limits v1 = .ok l1 ∧ calculate_io_limits v2 = .ok l2 ∧
      l1.speed ≤ l2.speed := by
  refine ⟨_, _, io_in_range_eq v1 ha (by omega), io_in_range_eq v2 (by omega) hc, ?_⟩
  simp only
  by_cases h1 : v1 < 32000
  · by_cases h2 : v2 < 32000
    · rw [if_pos h1, if_pos h2]
      exact min_le_min le_rfl (Nat.div_le_div_right hb)
    · rw [if_pos h1, if_neg h2]
      calc min 500 (v1 / 4) ≤ 500 := min_le_left _ _
        _ ≤ min 1000 (v2 / 64) := le_min (by omega) (by omega)
  · rw [if_neg h1, if_neg (by omega : ¬ v2 < 32000)]
    exact min_le_min le_rfl (Nat.div_le_div_right hb)

theorem claim_C9_witness :
    ∃ l1 l2, calculate_io_limits 31999 = .ok l1 ∧
      calculate_io_limits 32000 = .ok l2 ∧ l1.speed ≤ l2.speed :=
  claim_C9 31999 32000 (by decide) (by decide) (by decide)

/-- C10: in the size < 170 tier of gp2 the 128 MiB/s cap never binds:
for every size in [1, 169], max(3*size, 100) / 4 is at most 126, so the
returned speed is exactly max(3*size, 100) / 4 and the value 128 occurs
in the result only as burst_speed. -/
theorem claim_C10 (s : Nat) (h1 : 1 ≤ s) (h2 : s ≤ 169) :
    max (3 * s) 100 / 4 ≤ 126
  ∧ calculate_gp2_limits s =
      .ok { iops := max (3 * s) 100, speed := max (3 * s) 100 / 4,
            burst_iops := 3000, burst_speed := 128 } := by
  have hmax : max (3 * s) 100 ≤ 507 := by
    rcases Nat.le_total (3 * s) 100 with h | h
    · rw [Nat.max_eq_right h]; omega
    · rw [Nat.max_eq_left h]; omega
  have hb : max (3 * s) 100 / 4 ≤ 126 := by omega
  refine ⟨hb, ?_⟩
  unfold calculate_gp2_limits
  rw [if_neg (by omega : ¬(s < 1 ∨ s > 16384)),
    if_neg (by omega : ¬ s > 1000), if_pos (by omega : s < 170)]
  show Except.ok (Limit.mk (max (3 * s) 100)
    (min 128 (max (3 * s) 100 / 4)) 3000 128) = _
  rw [Nat.min_eq_right (by omega : max (3 * s) 100 / 4 ≤ 128)]

theorem claim_C10_witness :
    max (3 * 20) 100 / 4 ≤ 126
  ∧ calculate_gp2_limits 20 =
      .ok { iops := max (3 * 20) 100, speed := max (3 * 20) 100 / 4,
            burst_iops := 3000, burst_speed := 128 } :=
  claim_C10 20 (by decide) (by decide)

end VolumeLimit
